import Mathlib

/-!
# Plastic1DGap: uniaxial bilinear plasticity with a one-sided gap

A shallow embedding of `02-Run_Process/02-Materials/02-NonLinear/Plastic1DGap.cpp`.

The C++ `double` fields hold rationals (`ℚ`), the exact values of the doubles.  The code is
embedded twice: first with exact arithmetic (`construct`, `UpdateState`, `CommitState`,
`InitialState`), then with every arithmetic operation rounded (`constructRounded`,
`UpdateStateRounded`, `CommitStateRounded`, `InitialStateRounded`), which with the rounding
`binary64` is the arithmetic of IEEE 754 doubles.  Statements about the exact definitions
are statements in exact arithmetic.  The
object is a record of its five parameters and six history variables, and every
member function that mutates the object becomes a function from records to records.
`UpdateState` receives a one-component Eigen vector and reads only `strain(0)`;
that component is the argument `strain` here.  Division is the total division of `ℚ`;
the statements that depend on a quotient being a true quotient carry `E ≠ 0` or `E > 0`
and `Ratio < 1`.  The C++ constructor bears the name of the class; it is `construct` here.

The compression side (`Behavior = false`) is handled through `Plastic1DGap.mirror`: the
code commutes with the reflection of all signed quantities, so the history invariant is
stated once, for the tension side, as `Plastic1DGap.TensionInv`.
-/

/-- Tolerance constant of the translation unit, `const double TOL = 1.0E-06`: the value the
object code holds is the binary64 number nearest to `10⁻⁶`, `0x1.0c6f7a0b5ed8dp-20`, which is
`4722366482869645 / 2^72` and lies slightly below `10⁻⁶`. -/
def TOL : ℚ := 4722366482869645 / 2 ^ 72

/-- Value of a C++ `bool` used as an arithmetic operand (`true` is 1, `false` is 0). -/
def boolToDouble (b : Bool) : ℚ := if b then 1 else 0

/-- Data members of the class `Plastic1DGap`. -/
structure Plastic1DGap where
  E : ℚ
  fy : ℚ
  Gap : ℚ
  Ratio : ℚ
  Behavior : Bool
  newStrain : ℚ
  oldStrain : ℚ
  oldStress : ℚ
  oldTangentStiffness : ℚ
  minYieldStrain : ℚ
  maxYieldStrain : ℚ
deriving DecidableEq

/-- Sign factor of the constructor: `1.0*(Behavior == true) - 1.0*(Behavior == false)`. -/
def behaviorSign (Behavior : Bool) : ℚ :=
  1 * boolToDouble (Behavior == true) - 1 * boolToDouble (Behavior == false)

/-- Overload constructor `Plastic1DGap::Plastic1DGap(E, Sy, gap, eta, behavior)`. -/
def Plastic1DGap.construct (E Sy gap eta : ℚ) (behavior : Bool) : Plastic1DGap :=
  let fy := |Sy| * behaviorSign behavior
  let Gap := |gap| * behaviorSign behavior
  { E := E
    fy := fy
    Gap := Gap
    Ratio := eta
    Behavior := behavior
    minYieldStrain := Gap
    maxYieldStrain := Gap + fy / E
    newStrain := 0
    oldStrain := 0
    oldStress := 0
    oldTangentStiffness := E }

/-- Member `CopyMaterial`: a new object built by the constructor from the current parameters. -/
def Plastic1DGap.CopyMaterial (st : Plastic1DGap) : Plastic1DGap :=
  Plastic1DGap.construct st.E st.fy st.Gap st.Ratio st.Behavior

/-- Member `CommitState`: converged material state update. -/
def Plastic1DGap.CommitState (st : Plastic1DGap) : Plastic1DGap :=
  let st1 : Plastic1DGap :=
    if st.Behavior then
      if st.oldStrain > st.maxYieldStrain then
        { st with
          maxYieldStrain := st.oldStrain
          minYieldStrain := st.oldStrain - st.oldStress / st.E }
      else if st.oldStrain < st.minYieldStrain ∧ st.Gap < st.oldStrain then
        { st with
          maxYieldStrain := st.fy / st.E + (st.oldStrain - st.Ratio * st.Gap) / (1 - st.Ratio)
          minYieldStrain := st.oldStrain }
      else st
    else
      if st.oldStrain < st.maxYieldStrain then
        { st with
          maxYieldStrain := st.oldStrain
          minYieldStrain := st.oldStrain - st.oldStress / st.E }
      else if st.minYieldStrain < st.oldStrain ∧ st.oldStrain < st.Gap then
        { st with
          maxYieldStrain := st.fy / st.E + (st.oldStrain - st.Ratio * st.Gap) / (1 - st.Ratio)
          minYieldStrain := st.oldStrain }
      else st
  { st1 with newStrain := st1.oldStrain }

/-- Member `ReverseState`: back to the previous converged strain. -/
def Plastic1DGap.ReverseState (st : Plastic1DGap) : Plastic1DGap :=
  { st with oldStrain := st.newStrain }

/-- Member `InitialState`: brings the material to its initial state in the element. -/
def Plastic1DGap.InitialState (st : Plastic1DGap) : Plastic1DGap :=
  { st with
    minYieldStrain := st.Gap
    maxYieldStrain := st.Gap + st.fy / st.E
    newStrain := 0
    oldStrain := 0
    oldStress := 0
    oldTangentStiffness := st.E * boolToDouble (decide (|st.Gap| < TOL)) }

/-- Member `UpdateState(strain, cond)`: trial stress and tangent for this iteration;
the second argument is unused by the source. -/
def Plastic1DGap.UpdateState (st : Plastic1DGap) (strain : ℚ) (_cond : ℕ) : Plastic1DGap :=
  let st0 : Plastic1DGap := { st with oldStrain := strain }
  if st0.Behavior then
    if st0.oldStrain > st0.maxYieldStrain then
      { st0 with
        oldStress := st0.fy + (st0.oldStrain - st0.Gap - st0.fy / st0.E) * st0.Ratio * st0.E
        oldTangentStiffness := st0.Ratio * st0.E }
    else if st0.oldStrain < st0.minYieldStrain then
      { st0 with oldStress := 0, oldTangentStiffness := 0 }
    else
      { st0 with
        oldStress := st0.E * (st0.oldStrain - st0.minYieldStrain)
        oldTangentStiffness := st0.E }
  else
    if st0.oldStrain < st0.maxYieldStrain then
      { st0 with
        oldStress := st0.fy + (st0.oldStrain - st0.Gap - st0.fy / st0.E) * st0.Ratio * st0.E
        oldTangentStiffness := st0.Ratio * st0.E }
    else if st0.oldStrain > st0.minYieldStrain then
      { st0 with oldStress := 0, oldTangentStiffness := 0 }
    else
      { st0 with
        oldStress := st0.E * (st0.oldStrain - st0.minYieldStrain)
        oldTangentStiffness := st0.E }

/-- One call a solver can make on the material object. -/
inductive Call where
  | update (strain : ℚ) (cond : ℕ)
  | commit
  | reverse
  | initial
deriving DecidableEq

/-- Effect of one call on the object. -/
def Plastic1DGap.call (st : Plastic1DGap) : Call → Plastic1DGap
  | Call.update strain cond => st.UpdateState strain cond
  | Call.commit => st.CommitState
  | Call.reverse => st.ReverseState
  | Call.initial => st.InitialState

/-- Effect of a sequence of calls, first call first. -/
def Plastic1DGap.run (st : Plastic1DGap) (calls : List Call) : Plastic1DGap :=
  calls.foldl Plastic1DGap.call st

/-- Reflection of a call about zero strain. -/
def Call.mirror : Call → Call
  | Call.update strain cond => Call.update (-strain) cond
  | c => c

/-- Reflection of an object about zero strain and zero stress: the signed quantities change
sign, the behaviour flag flips, the moduli stay. -/
def Plastic1DGap.mirror (st : Plastic1DGap) : Plastic1DGap :=
  { E := st.E
    fy := -st.fy
    Gap := -st.Gap
    Ratio := st.Ratio
    Behavior := !st.Behavior
    newStrain := -st.newStrain
    oldStrain := -st.oldStrain
    oldStress := -st.oldStress
    oldTangentStiffness := st.oldTangentStiffness
    minYieldStrain := -st.minYieldStrain
    maxYieldStrain := -st.maxYieldStrain }

/-- History invariant of a tension-side object (`Behavior = true`) with admissible
parameters: the upper bound never falls below first yield, the lower bound is tied to the upper
one by the hardening line, the committed strain sits in the window or in the open gap, and a
trial strain beyond the upper bound carries the hardening stress. -/
structure Plastic1DGap.TensionInv (st : Plastic1DGap) : Prop where
  behavior : st.Behavior = true
  E_pos : 0 < st.E
  Ratio_nonneg : 0 ≤ st.Ratio
  Ratio_lt_one : st.Ratio < 1
  fy_nonneg : 0 ≤ st.fy
  Gap_nonneg : 0 ≤ st.Gap
  max_ge : st.Gap + st.fy / st.E ≤ st.maxYieldStrain
  min_eq : st.minYieldStrain
    = st.Gap + (st.maxYieldStrain - st.Gap - st.fy / st.E) * (1 - st.Ratio)
  new_le : st.newStrain ≤ st.maxYieldStrain
  new_ge : st.minYieldStrain ≤ st.newStrain ∨ st.newStrain ≤ st.Gap
  old_stress : st.maxYieldStrain < st.oldStrain →
    st.oldStress = st.fy + (st.oldStrain - st.Gap - st.fy / st.E) * st.Ratio * st.E

/-- States an object can be in: built by the constructor from admissible parameters
(`E > 0`, `0 ≤ Ratio < 1`) and then driven by any finite sequence of calls. -/
def Plastic1DGap.Reachable (st : Plastic1DGap) : Prop :=
  ∃ (E Sy gap eta : ℚ) (b : Bool) (calls : List Call),
    0 < E ∧ 0 ≤ eta ∧ eta < 1 ∧ st = (Plastic1DGap.construct E Sy gap eta b).run calls

/-- Sample tension-side history: `E = 200`, `Sy = 20`, `gap = 1/100`, `eta = 1/50`,
`Behavior = true`; the object yields to strain `1/5` and the step is committed. -/
def tensionSample : Plastic1DGap :=
  (Plastic1DGap.construct 200 20 (1/100) (1/50) true).run [Call.update (1/5) 0, Call.commit]

/-- Sample compression-side history: same magnitudes with `Behavior = false`; the object
yields to strain `-1/5`, commits, unloads to `-1/20` (between the lower bound and the gap)
and commits again. -/
def compressionSample : Plastic1DGap :=
  (Plastic1DGap.construct 200 20 (1/100) (1/50) false).run
    [Call.update (-1/5) 0, Call.commit, Call.update (-1/20) 0, Call.commit]

/-- Two objects carry the same five parameters. -/
def Plastic1DGap.sameParameters (a b : Plastic1DGap) : Prop :=
  a.E = b.E ∧ a.fy = b.fy ∧ a.Gap = b.Gap ∧ a.Ratio = b.Ratio ∧ a.Behavior = b.Behavior

/-- Sample tension-side reloading state: the sample tension-side object unloaded to the trial
strain `1/20`, between the gap `1/100` and the lower bound `491/5000`, not yet committed. -/
def reloadSample : Plastic1DGap :=
  (Plastic1DGap.construct 200 20 (1/100) (1/50) true).run
    [Call.update (1/5) 0, Call.commit, Call.update (1/20) 0]

/-! ### Binary64 evaluation of the same code

The definitions above compute in exact arithmetic.  The definitions below repeat the
constructor, `CommitState`, `InitialState` and `UpdateState` with every arithmetic operation
of the source followed by a rounding `rnd`, in the evaluation order of the C++ expressions
(left to right, one rounding per operation, no fused multiply-add).  With `rnd = binary64`
they compute what the source computes on IEEE 754 doubles, for finite results below the
overflow threshold; with `rnd = id` they are the exact definitions. -/

/-- Number of binary digits of `n`, the search bounded by `fuel`. -/
def bitLengthAux : ℕ → ℕ → ℕ
  | 0, _ => 0
  | fuel + 1, n => if n = 0 then 0 else bitLengthAux fuel (n / 2) + 1

/-- Number of binary digits of `n`: `2^(bitLength n - 1) ≤ n < 2^(bitLength n)` for
`n ≥ 1`. -/
def bitLength (n : ℕ) : ℕ := bitLengthAux n n

/-- Exponent of the binade of a positive rational `a`: the integer `e` with
`2^e ≤ a < 2^(e+1)`, found from the bit lengths of numerator and denominator. -/
def binade (a : ℚ) : ℤ :=
  if (2 : ℚ) ^ ((bitLength a.num.natAbs : ℤ) - (bitLength a.den : ℤ)) ≤ a
  then (bitLength a.num.natAbs : ℤ) - (bitLength a.den : ℤ)
  else (bitLength a.num.natAbs : ℤ) - (bitLength a.den : ℤ) - 1

/-- Nearest integer, ties to the even one. -/
def roundHalfEven (x : ℚ) : ℤ :=
  if x - ⌊x⌋ < 1 / 2 then ⌊x⌋
  else if 1 / 2 < x - ⌊x⌋ then ⌊x⌋ + 1
  else if ⌊x⌋ % 2 = 0 then ⌊x⌋ else ⌊x⌋ + 1

/-- Rounding to the nearest IEEE 754 binary64 number, ties to even: 53 significant bits,
smallest normal exponent `-1022` (below it the spacing stays `2^(-1074)`).  Overflow to an
infinity is outside the model. -/
def binary64 (q : ℚ) : ℚ :=
  if q = 0 then 0
  else roundHalfEven (q / 2 ^ (max (binade |q|) (-1022) - 52))
    * 2 ^ (max (binade |q|) (-1022) - 52)

/-- Constructor with rounded operations:
`fy = fabs(Sy)*(1.0*(Behavior == true) - 1.0*(Behavior == false))`, the same for `Gap`,
`maxYieldStrain = Gap + fy/E`. -/
def Plastic1DGap.constructRounded (rnd : ℚ → ℚ) (E Sy gap eta : ℚ) (behavior : Bool) :
    Plastic1DGap :=
  let fy := rnd (|Sy| * rnd (rnd (1 * boolToDouble (behavior == true))
    - rnd (1 * boolToDouble (behavior == false))))
  let Gap := rnd (|gap| * rnd (rnd (1 * boolToDouble (behavior == true))
    - rnd (1 * boolToDouble (behavior == false))))
  { E := E
    fy := fy
    Gap := Gap
    Ratio := eta
    Behavior := behavior
    minYieldStrain := Gap
    maxYieldStrain := rnd (Gap + rnd (fy / E))
    newStrain := 0
    oldStrain := 0
    oldStress := 0
    oldTangentStiffness := E }

/-- Member `CommitState` with rounded operations:
`minYieldStrain = oldStrain - oldStress/E` and
`maxYieldStrain = fy/E + (oldStrain - Ratio*Gap)/(1.0 - Ratio)`. -/
def Plastic1DGap.CommitStateRounded (rnd : ℚ → ℚ) (st : Plastic1DGap) : Plastic1DGap :=
  let st1 : Plastic1DGap :=
    if st.Behavior then
      if st.oldStrain > st.maxYieldStrain then
        { st with
          maxYieldStrain := st.oldStrain
          minYieldStrain := rnd (st.oldStrain - rnd (st.oldStress / st.E)) }
      else if st.oldStrain < st.minYieldStrain ∧ st.Gap < st.oldStrain then
        { st with
          maxYieldStrain := rnd (rnd (st.fy / st.E)
            + rnd (rnd (st.oldStrain - rnd (st.Ratio * st.Gap)) / rnd (1 - st.Ratio)))
          minYieldStrain := st.oldStrain }
      else st
    else
      if st.oldStrain < st.maxYieldStrain then
        { st with
          maxYieldStrain := st.oldStrain
          minYieldStrain := rnd (st.oldStrain - rnd (st.oldStress / st.E)) }
      else if st.minYieldStrain < st.oldStrain ∧ st.oldStrain < st.Gap then
        { st with
          maxYieldStrain := rnd (rnd (st.fy / st.E)
            + rnd (rnd (st.oldStrain - rnd (st.Ratio * st.Gap)) / rnd (1 - st.Ratio)))
          minYieldStrain := st.oldStrain }
      else st
  { st1 with newStrain := st1.oldStrain }

/-- Member `InitialState` with rounded operations. -/
def Plastic1DGap.InitialStateRounded (rnd : ℚ → ℚ) (st : Plastic1DGap) : Plastic1DGap :=
  { st with
    minYieldStrain := st.Gap
    maxYieldStrain := rnd (st.Gap + rnd (st.fy / st.E))
    newStrain := 0
    oldStrain := 0
    oldStress := 0
    oldTangentStiffness := rnd (st.E * boolToDouble (decide (|st.Gap| < TOL))) }

/-- Member `UpdateState` with rounded operations:
`oldStress = fy + (oldStrain - Gap - fy/E)*Ratio*E`, `oldTangentStiffness = Ratio*E` on the
hardening branch and `oldStress = E*(oldStrain - minYieldStrain)` on the elastic branch. -/
def Plastic1DGap.UpdateStateRounded (rnd : ℚ → ℚ) (st : Plastic1DGap) (strain : ℚ)
    (_cond : ℕ) : Plastic1DGap :=
  let st0 : Plastic1DGap := { st with oldStrain := strain }
  if st0.Behavior then
    if st0.oldStrain > st0.maxYieldStrain then
      { st0 with
        oldStress := rnd (st0.fy + rnd (rnd (rnd (rnd (st0.oldStrain - st0.Gap)
          - rnd (st0.fy / st0.E)) * st0.Ratio) * st0.E))
        oldTangentStiffness := rnd (st0.Ratio * st0.E) }
    else if st0.oldStrain < st0.minYieldStrain then
      { st0 with oldStress := 0, oldTangentStiffness := 0 }
    else
      { st0 with
        oldStress := rnd (st0.E * rnd (st0.oldStrain - st0.minYieldStrain))
        oldTangentStiffness := st0.E }
  else
    if st0.oldStrain < st0.maxYieldStrain then
      { st0 with
        oldStress := rnd (st0.fy + rnd (rnd (rnd (rnd (st0.oldStrain - st0.Gap)
          - rnd (st0.fy / st0.E)) * st0.Ratio) * st0.E))
        oldTangentStiffness := rnd (st0.Ratio * st0.E) }
    else if st0.oldStrain > st0.minYieldStrain then
      { st0 with oldStress := 0, oldTangentStiffness := 0 }
    else
      { st0 with
        oldStress := rnd (st0.E * rnd (st0.oldStrain - st0.minYieldStrain))
        oldTangentStiffness := st0.E }

/-- Effect of one call on the object, rounded operations. -/
def Plastic1DGap.callRounded (rnd : ℚ → ℚ) (st : Plastic1DGap) : Call → Plastic1DGap
  | Call.update strain cond => st.UpdateStateRounded rnd strain cond
  | Call.commit => st.CommitStateRounded rnd
  | Call.reverse => st.ReverseState
  | Call.initial => st.InitialStateRounded rnd

/-- Effect of a sequence of calls, first call first, rounded operations. -/
def Plastic1DGap.runRounded (rnd : ℚ → ℚ) (st : Plastic1DGap) (calls : List Call) :
    Plastic1DGap :=
  calls.foldl (Plastic1DGap.callRounded rnd) st

/-- Scenario of the specification on doubles: `Plastic1DGap(200, 20, 0.01, 0.02, true)`,
`UpdateState(0.05)`, `CommitState`, `UpdateState(0.20)`, `CommitState`. -/
def roundedScenario : Plastic1DGap :=
  (Plastic1DGap.constructRounded binary64 200 20 (binary64 (1/100)) (binary64 (1/50))
      true).runRounded binary64
    [Call.update (binary64 (1/20)) 0, Call.commit, Call.update (binary64 (1/5)) 0,
      Call.commit]

/-- Sample double-precision history on the tension side: `Plastic1DGap(200, 0, 0.01, 0.1,
true)`, then `UpdateState(0.2)`, `CommitState`, `UpdateState(0.1*0.1)`, `CommitState`.  The
decimal literals stand for the doubles nearest to them and `0.1*0.1` for the double product,
which is the double next above `0.01`. -/
def roundedTensionSample : Plastic1DGap :=
  (Plastic1DGap.constructRounded binary64 200 0 (binary64 (1/100)) (binary64 (1/10))
      true).runRounded binary64
    [Call.update (binary64 (1/5)) 0, Call.commit,
      Call.update (binary64 (binary64 (1/10) * binary64 (1/10))) 0, Call.commit]

/-- Sample double-precision history on the compression side: `Plastic1DGap(200, 0, 0.01,
0.1, false)`, then `UpdateState(-0.2)`, `CommitState`, `UpdateState(-(0.1*0.1))`,
`CommitState`. -/
def roundedCompressionSample : Plastic1DGap :=
  (Plastic1DGap.constructRounded binary64 200 0 (binary64 (1/100)) (binary64 (1/10))
      false).runRounded binary64
    [Call.update (-binary64 (1/5)) 0, Call.commit,
      Call.update (-binary64 (binary64 (1/10) * binary64 (1/10))) 0, Call.commit]

theorem Plastic1DGap.mirror_mirror (st : Plastic1DGap) : st.mirror.mirror = st := by
  cases st
  simp [Plastic1DGap.mirror]

theorem Plastic1DGap.UpdateState_mirror (st : Plastic1DGap) (s : ℚ) (c : ℕ) :
    st.mirror.UpdateState (-s) c = (st.UpdateState s c).mirror := by
  obtain ⟨E, fy, Gap, R, b, ns, os, sg, tg, mn, mx⟩ := st
  cases b <;> simp only [Plastic1DGap.UpdateState, Plastic1DGap.mirror] <;>
    simp only [Bool.not_true, Bool.not_false, if_true, if_false, Bool.false_eq_true,
      neg_lt_neg_iff, gt_iff_lt] <;>
    split_ifs <;> simp [Plastic1DGap.mirror] <;> ring

theorem Plastic1DGap.CommitState_mirror (st : Plastic1DGap) :
    st.mirror.CommitState = st.CommitState.mirror := by
  obtain ⟨E, fy, Gap, R, b, ns, os, sg, tg, mn, mx⟩ := st
  cases b <;> simp only [Plastic1DGap.CommitState, Plastic1DGap.mirror] <;>
    simp only [Bool.not_true, Bool.not_false, if_true, if_false, Bool.false_eq_true,
      neg_lt_neg_iff, gt_iff_lt] <;>
    split_ifs <;> simp_all [Plastic1DGap.mirror] <;> ring

theorem Plastic1DGap.ReverseState_mirror (st : Plastic1DGap) :
    st.mirror.ReverseState = st.ReverseState.mirror := by
  simp [Plastic1DGap.ReverseState, Plastic1DGap.mirror]

theorem Plastic1DGap.InitialState_mirror (st : Plastic1DGap) :
    st.mirror.InitialState = st.InitialState.mirror := by
  simp only [Plastic1DGap.InitialState, Plastic1DGap.mirror, abs_neg, neg_zero,
    Plastic1DGap.mk.injEq, true_and, and_true, and_self]
  ring

theorem Plastic1DGap.call_mirror (st : Plastic1DGap) (c : Call) :
    st.mirror.call c.mirror = (st.call c).mirror := by
  cases c with
  | update s k => exact Plastic1DGap.UpdateState_mirror st s k
  | commit => exact Plastic1DGap.CommitState_mirror st
  | reverse => exact Plastic1DGap.ReverseState_mirror st
  | initial => exact Plastic1DGap.InitialState_mirror st

theorem Plastic1DGap.run_mirror (calls : List Call) (st : Plastic1DGap) :
    st.mirror.run (calls.map Call.mirror) = (st.run calls).mirror := by
  induction calls generalizing st with
  | nil => rfl
  | cons c cs ih =>
    simp only [Plastic1DGap.run, List.map_cons, List.foldl_cons] at ih ⊢
    rw [Plastic1DGap.call_mirror]
    exact ih (st.call c)

theorem Plastic1DGap.construct_mirror (E Sy gap eta : ℚ) (b : Bool) :
    (Plastic1DGap.construct E Sy gap eta b).mirror = Plastic1DGap.construct E Sy gap eta (!b) := by
  cases b <;>
    simp [Plastic1DGap.construct, Plastic1DGap.mirror, behaviorSign, boolToDouble] <;> ring

theorem Plastic1DGap.run_append (st : Plastic1DGap) (xs ys : List Call) :
    st.run (xs ++ ys) = (st.run xs).run ys := by
  simp [Plastic1DGap.run, List.foldl_append]

theorem hardening_div (E fy x R : ℚ) (hE : E ≠ 0) :
    (fy + x * R * E) / E = fy / E + x * R := by
  field_simp

theorem Plastic1DGap.TensionInv.yield_nonneg {st : Plastic1DGap} (h : st.TensionInv) :
    0 ≤ st.fy / st.E :=
  div_nonneg h.fy_nonneg h.E_pos.le

theorem Plastic1DGap.TensionInv.Gap_le_min {st : Plastic1DGap} (h : st.TensionInv) :
    st.Gap ≤ st.minYieldStrain := by
  have h1 := h.max_ge
  have h2 := h.Ratio_lt_one
  have h3 : 0 ≤ (st.maxYieldStrain - st.Gap - st.fy / st.E) * (1 - st.Ratio) :=
    mul_nonneg (by linarith) (by linarith)
  rw [h.min_eq]
  linarith

theorem Plastic1DGap.TensionInv.min_le_max {st : Plastic1DGap} (h : st.TensionInv) :
    st.minYieldStrain ≤ st.maxYieldStrain := by
  have h1 := h.max_ge
  have h2 := h.Ratio_nonneg
  have h3 : 0 ≤ (st.maxYieldStrain - st.Gap - st.fy / st.E) * st.Ratio :=
    mul_nonneg (by linarith) h2
  have h4 := h.yield_nonneg
  rw [h.min_eq]
  linarith

theorem Plastic1DGap.TensionInv.of_construct (E Sy gap eta : ℚ)
    (hE : 0 < E) (h0 : 0 ≤ eta) (h1 : eta < 1) :
    (Plastic1DGap.construct E Sy gap eta true).TensionInv := by
  have hy : 0 ≤ |Sy| / E := div_nonneg (abs_nonneg Sy) hE.le
  have hg : 0 ≤ |gap| := abs_nonneg gap
  constructor <;>
    simp only [Plastic1DGap.construct, behaviorSign, boolToDouble, beq_self_eq_true, if_true,
      Bool.true_eq_false, beq_iff_eq, if_false, mul_one, mul_zero, sub_zero, one_mul] <;>
    first
      | assumption
      | exact abs_nonneg _
      | exact le_refl _
      | (intro hlt; linarith)
      | (right; assumption)
      | linarith

theorem Plastic1DGap.TensionInv.of_UpdateState {st : Plastic1DGap} (h : st.TensionInv)
    (s : ℚ) (c : ℕ) : (st.UpdateState s c).TensionInv := by
  obtain ⟨E, fy, Gap, R, b, ns, os, sg, tg, mn, mx⟩ := st
  obtain ⟨hb, hE, hR0, hR1, hfy, hG, hmax, hmin, hnl, hng, _⟩ := h
  simp only at hb hE hR0 hR1 hfy hG hmax hmin hnl hng
  subst hb
  simp only [Plastic1DGap.UpdateState, if_true]
  split_ifs with h1 h2
  · exact ⟨rfl, hE, hR0, hR1, hfy, hG, hmax, hmin, hnl, hng, fun _ => rfl⟩
  · exact ⟨rfl, hE, hR0, hR1, hfy, hG, hmax, hmin, hnl, hng, fun hlt => absurd hlt h1⟩
  · exact ⟨rfl, hE, hR0, hR1, hfy, hG, hmax, hmin, hnl, hng, fun hlt => absurd hlt h1⟩

theorem Plastic1DGap.TensionInv.of_ReverseState {st : Plastic1DGap} (h : st.TensionInv) :
    st.ReverseState.TensionInv := by
  obtain ⟨hb, hE, hR0, hR1, hfy, hG, hmax, hmin, hnl, hng, _⟩ := h
  exact ⟨hb, hE, hR0, hR1, hfy, hG, hmax, hmin, hnl, hng,
    fun hlt => absurd hlt (not_lt.mpr hnl)⟩

theorem Plastic1DGap.TensionInv.of_InitialState {st : Plastic1DGap} (h : st.TensionInv) :
    st.InitialState.TensionInv := by
  have hy := h.yield_nonneg
  obtain ⟨hb, hE, hR0, hR1, hfy, hG, -, -, -, -, -⟩ := h
  refine ⟨hb, hE, hR0, hR1, hfy, hG, le_refl _, ?_, ?_, Or.inr hG, ?_⟩
  · simp only [Plastic1DGap.InitialState]
    ring
  · simp only [Plastic1DGap.InitialState]
    linarith
  · simp only [Plastic1DGap.InitialState]
    intro hlt
    linarith

theorem Plastic1DGap.TensionInv.of_CommitState {st : Plastic1DGap} (h : st.TensionInv) :
    st.CommitState.TensionInv := by
  have hy := h.yield_nonneg
  have hGm := h.Gap_le_min
  obtain ⟨E, fy, Gap, R, b, ns, os, sg, tg, mn, mx⟩ := st
  obtain ⟨hb, hE, hR0, hR1, hfy, hG, hmax, hmin, hnl, hng, hos⟩ := h
  simp only at hy hGm hb hE hR0 hR1 hfy hG hmax hmin hnl hng hos
  subst hb
  simp only [Plastic1DGap.CommitState, if_true, gt_iff_lt]
  split_ifs with h1 h2
  · -- new maximum excursion
    have hσ : sg / E = fy / E + (os - Gap - fy / E) * R := by
      rw [hos h1, hardening_div _ _ _ _ hE.ne.symm]
    have hp : 0 ≤ (os - Gap - fy / E) * R := mul_nonneg (by linarith) hR0
    refine ⟨rfl, hE, hR0, hR1, hfy, hG, ?_, ?_, le_refl _, Or.inl ?_, ?_⟩
    · show Gap + fy / E ≤ os
      linarith
    · show os - sg / E = Gap + (os - Gap - fy / E) * (1 - R)
      rw [hσ]
      ring
    · show os - sg / E ≤ os
      rw [hσ]
      linarith
    · intro hlt
      exact absurd hlt (lt_irrefl _)
  · -- re-anchoring between the gap and the lower bound
    obtain ⟨h2a, h2b⟩ := h2
    have hR : 0 < 1 - R := by linarith
    have hq : (os - R * Gap) / (1 - R) * (1 - R) = os - R * Gap :=
      div_mul_cancel₀ _ hR.ne.symm
    have hr : R * Gap ≤ R * os := mul_le_mul_of_nonneg_left h2b.le hR0
    have hq1 : os ≤ (os - R * Gap) / (1 - R) := by
      rw [le_div_iff₀ hR]
      linarith
    refine ⟨rfl, hE, hR0, hR1, hfy, hG, ?_, ?_, ?_, Or.inl (le_refl _), ?_⟩
    · show Gap + fy / E ≤ fy / E + (os - R * Gap) / (1 - R)
      linarith
    · show os = Gap + (fy / E + (os - R * Gap) / (1 - R) - Gap - fy / E) * (1 - R)
      linear_combination -hq
    · show os ≤ fy / E + (os - R * Gap) / (1 - R)
      linarith
    · intro hlt
      have hlt2 : fy / E + (os - R * Gap) / (1 - R) < os := hlt
      linarith
  · -- bounds unchanged
    refine ⟨rfl, hE, hR0, hR1, hfy, hG, hmax, hmin, not_lt.mp h1, ?_, ?_⟩
    · show mn ≤ os ∨ os ≤ Gap
      by_cases h3 : os < mn
      · exact Or.inr (not_lt.mp fun h4 => h2 ⟨h3, h4⟩)
      · exact Or.inl (not_lt.mp h3)
    · intro hlt
      exact absurd hlt h1

theorem Plastic1DGap.TensionInv.of_call {st : Plastic1DGap} (h : st.TensionInv) (c : Call) :
    (st.call c).TensionInv := by
  cases c with
  | update s k => exact h.of_UpdateState s k
  | commit => exact h.of_CommitState
  | reverse => exact h.of_ReverseState
  | initial => exact h.of_InitialState

theorem Plastic1DGap.TensionInv.of_run {st : Plastic1DGap} (h : st.TensionInv)
    (calls : List Call) : (st.run calls).TensionInv := by
  induction calls generalizing st with
  | nil => exact h
  | cons c cs ih => exact ih (h.of_call c)

theorem Call.mirror_involutive (c : Call) : c.mirror.mirror = c := by
  cases c <;> simp [Call.mirror]

theorem Plastic1DGap.UpdateState_of_mirror (m : Plastic1DGap) (s : ℚ) (c : ℕ) :
    m.mirror.UpdateState s c = (m.UpdateState (-s) c).mirror := by
  rw [← Plastic1DGap.UpdateState_mirror, neg_neg]

theorem Plastic1DGap.exists_mirror (st : Plastic1DGap) : ∃ m : Plastic1DGap, st = m.mirror :=
  ⟨st.mirror, st.mirror_mirror.symm⟩

/-- Every reachable state is a tension-side state satisfying the history invariant, or the
mirror image of one. -/
theorem Plastic1DGap.Reachable.tension_or_mirror {st : Plastic1DGap} (h : st.Reachable) :
    st.TensionInv ∨ ∃ m : Plastic1DGap, m.TensionInv ∧ st = m.mirror := by
  obtain ⟨E, Sy, gap, eta, b, calls, hE, h0, h1, rfl⟩ := h
  cases b with
  | true => exact Or.inl ((Plastic1DGap.TensionInv.of_construct E Sy gap eta hE h0 h1).of_run calls)
  | false =>
    refine Or.inr ⟨(Plastic1DGap.construct E Sy gap eta true).run (calls.map Call.mirror),
      (Plastic1DGap.TensionInv.of_construct E Sy gap eta hE h0 h1).of_run _, ?_⟩
    rw [← Plastic1DGap.run_mirror, Plastic1DGap.construct_mirror, List.map_map]
    have hid : Call.mirror ∘ Call.mirror = id := funext Call.mirror_involutive
    simp [hid]

theorem Plastic1DGap.Reachable.step {st : Plastic1DGap} (h : st.Reachable) (c : Call) :
    (st.call c).Reachable := by
  obtain ⟨E, Sy, gap, eta, b, calls, hE, h0, h1, rfl⟩ := h
  exact ⟨E, Sy, gap, eta, b, calls ++ [c], hE, h0, h1, by
    simp [Plastic1DGap.run, List.foldl_append]⟩

/-- Tension side: a trial strain at or below the gap gives zero stress. -/
theorem Plastic1DGap.TensionInv.gap_open {st : Plastic1DGap} (h : st.TensionInv)
    (s : ℚ) (c : ℕ) (hs : s ≤ st.Gap) : (st.UpdateState s c).oldStress = 0 := by
  have h1 := h.Gap_le_min
  have h2 := h.min_le_max
  have hb := h.behavior
  obtain ⟨E, fy, Gap, R, b, ns, os, sg, tg, mn, mx⟩ := st
  simp only at h1 h2 hb hs
  subst hb
  simp only [Plastic1DGap.UpdateState, if_true]
  split_ifs with h3 h4
  · exact absurd h3 (not_lt.mpr (by linarith))
  · rfl
  · have h5 : s = mn := le_antisymm (by linarith) (not_lt.mp h4)
    show E * (s - mn) = 0
    rw [h5, sub_self, mul_zero]

/-- Tension side: the hardening line and the elastic line meet at the upper bound. -/
theorem Plastic1DGap.TensionInv.continuity {st : Plastic1DGap} (h : st.TensionInv) :
    st.fy + (st.maxYieldStrain - st.Gap - st.fy / st.E) * st.Ratio * st.E
      = st.E * (st.maxYieldStrain - st.minYieldStrain) := by
  have hE : st.E * (st.fy / st.E) = st.fy := mul_div_cancel₀ _ h.E_pos.ne.symm
  rw [h.min_eq]
  linear_combination -hE

/-- A trial followed by a rollback leaves no trace on the next trial. -/
theorem Plastic1DGap.UpdateState_ReverseState_UpdateState (st : Plastic1DGap) (s t : ℚ)
    (c d : ℕ) : ((st.UpdateState t c).ReverseState).UpdateState s d = st.UpdateState s d := by
  obtain ⟨E, fy, Gap, R, b, ns, os, sg, tg, mn, mx⟩ := st
  cases b
  · by_cases h1 : t < mx
    · simp only [Plastic1DGap.UpdateState, Plastic1DGap.ReverseState, if_false,
        Bool.false_eq_true, h1, if_true]
    · by_cases h2 : t > mn
      · simp only [Plastic1DGap.UpdateState, Plastic1DGap.ReverseState, if_false,
          Bool.false_eq_true, h1, h2, if_true]
      · simp only [Plastic1DGap.UpdateState, Plastic1DGap.ReverseState, if_false,
          Bool.false_eq_true, h1, h2]
  · by_cases h1 : t > mx
    · simp only [Plastic1DGap.UpdateState, Plastic1DGap.ReverseState, h1, if_true]
    · by_cases h2 : t < mn
      · simp only [Plastic1DGap.UpdateState, Plastic1DGap.ReverseState, h1, h2, if_true,
          if_false]
      · simp only [Plastic1DGap.UpdateState, Plastic1DGap.ReverseState, h1, h2, if_true,
          if_false]

/-- Tension side: re-evaluating the committed strain after the commit gives the committed
stress; the tangent is the committed one when the commit kept both bounds and `E` otherwise. -/
theorem Plastic1DGap.TensionInv.commit_update {st : Plastic1DGap} (h : st.TensionInv)
    (s : ℚ) (c d : ℕ) :
    ((st.UpdateState s c).CommitState.UpdateState s d).oldStress
        = (st.UpdateState s c).CommitState.oldStress ∧
    (if (st.UpdateState s c).CommitState.minYieldStrain = st.minYieldStrain ∧
        (st.UpdateState s c).CommitState.maxYieldStrain = st.maxYieldStrain
      then ((st.UpdateState s c).CommitState.UpdateState s d).oldTangentStiffness
        = (st.UpdateState s c).CommitState.oldTangentStiffness
      else ((st.UpdateState s c).CommitState.UpdateState s d).oldTangentStiffness = st.E) := by
  have hy := h.yield_nonneg
  have hGm := h.Gap_le_min
  have hmm := h.min_le_max
  obtain ⟨E, fy, Gap, R, b, ns, os, sg, tg, mn, mx⟩ := st
  obtain ⟨hb, hE, hR0, hR1, hfy, hG, hmax, hmin, hnl, hng, hos⟩ := h
  simp only at hy hGm hmm hb hE hR0 hR1 hfy hG hmax hmin hnl hng hos
  subst hb
  by_cases h1 : mx < s
  · -- the commit records a new maximum
    have hσ : (fy + (s - Gap - fy / E) * R * E) / E = fy / E + (s - Gap - fy / E) * R :=
      hardening_div _ _ _ _ hE.ne.symm
    have hp : 0 ≤ (s - Gap - fy / E) * R := mul_nonneg (by linarith) hR0
    have h2 : ¬ s < s - (fy + (s - Gap - fy / E) * R * E) / E := by
      rw [hσ]
      linarith
    have h3 : ¬ s = mx := fun h => absurd h1 (by rw [h]; exact lt_irrefl _)
    simp only [Plastic1DGap.UpdateState, Plastic1DGap.CommitState, if_true, gt_iff_lt, h1,
      lt_irrefl, if_false, h2, h3, and_false]
    refine ⟨?_, trivial⟩
    field_simp
  · by_cases h2 : s < mn
    · by_cases h3 : Gap < s
      · -- the commit re-anchors the window at the committed strain
        have hR : 0 < 1 - R := by linarith
        have hr : R * Gap ≤ R * s := mul_le_mul_of_nonneg_left h3.le hR0
        have hq1 : s ≤ (s - R * Gap) / (1 - R) := by
          rw [le_div_iff₀ hR]
          linarith
        have h4 : ¬ fy / E + (s - R * Gap) / (1 - R) < s := by linarith
        have h5 : ¬ s = mn := fun h => absurd h2 (by rw [h]; exact lt_irrefl _)
        simp only [Plastic1DGap.UpdateState, Plastic1DGap.CommitState, if_true, gt_iff_lt, h1,
          h2, h3, h4, h5, lt_irrefl, if_false, and_self, false_and, sub_self, mul_zero]
      · simp only [Plastic1DGap.UpdateState, Plastic1DGap.CommitState, if_true, gt_iff_lt, h1,
          h2, h3, if_false, and_false, and_self]
    · simp only [Plastic1DGap.UpdateState, Plastic1DGap.CommitState, if_true, gt_iff_lt, h1,
        h2, if_false, false_and, and_self]


/-- Field values of a mirrored record. -/
theorem Plastic1DGap.mirror_fields (m : Plastic1DGap) :
    m.mirror.E = m.E ∧ m.mirror.fy = -m.fy ∧ m.mirror.Gap = -m.Gap ∧
    m.mirror.Ratio = m.Ratio ∧ m.mirror.Behavior = (!m.Behavior) ∧
    m.mirror.newStrain = -m.newStrain ∧ m.mirror.oldStrain = -m.oldStrain ∧
    m.mirror.oldStress = -m.oldStress ∧
    m.mirror.oldTangentStiffness = m.oldTangentStiffness ∧
    m.mirror.minYieldStrain = -m.minYieldStrain ∧
    m.mirror.maxYieldStrain = -m.maxYieldStrain :=
  ⟨rfl, rfl, rfl, rfl, rfl, rfl, rfl, rfl, rfl, rfl, rfl⟩

/-- No call changes a parameter. -/
theorem Plastic1DGap.call_params (st : Plastic1DGap) (c : Call) :
    (st.call c).E = st.E ∧ (st.call c).fy = st.fy ∧ (st.call c).Gap = st.Gap ∧
    (st.call c).Ratio = st.Ratio ∧ (st.call c).Behavior = st.Behavior := by
  cases c with
  | update s k =>
    simp only [Plastic1DGap.call, Plastic1DGap.UpdateState]
    split_ifs <;> exact ⟨rfl, rfl, rfl, rfl, rfl⟩
  | commit =>
    simp only [Plastic1DGap.call, Plastic1DGap.CommitState]
    split_ifs <;> exact ⟨rfl, rfl, rfl, rfl, rfl⟩
  | reverse => exact ⟨rfl, rfl, rfl, rfl, rfl⟩
  | initial => exact ⟨rfl, rfl, rfl, rfl, rfl⟩

/-- No sequence of calls changes a parameter. -/
theorem Plastic1DGap.run_params (calls : List Call) (st : Plastic1DGap) :
    (st.run calls).E = st.E ∧ (st.run calls).fy = st.fy ∧ (st.run calls).Gap = st.Gap ∧
    (st.run calls).Ratio = st.Ratio ∧ (st.run calls).Behavior = st.Behavior := by
  induction calls generalizing st with
  | nil => exact ⟨rfl, rfl, rfl, rfl, rfl⟩
  | cons c cs ih =>
    obtain ⟨h1, h2, h3, h4, h5⟩ := ih (st.call c)
    obtain ⟨k1, k2, k3, k4, k5⟩ := st.call_params c
    exact ⟨h1.trans k1, h2.trans k2, h3.trans k3, h4.trans k4, h5.trans k5⟩

/-- The constructor's sign logic leaves an already signed magnitude unchanged. -/
theorem behaviorSign_idem (x : ℚ) (b : Bool) :
    |(|x| * behaviorSign b)| * behaviorSign b = |x| * behaviorSign b := by
  cases b <;> simp [behaviorSign, boolToDouble]

/-- What `CommitState` keeps of the trial and what it records. -/
theorem Plastic1DGap.CommitState_frame (st : Plastic1DGap) :
    st.CommitState.newStrain = st.oldStrain ∧ st.CommitState.oldStrain = st.oldStrain ∧
    st.CommitState.oldStress = st.oldStress ∧
    st.CommitState.oldTangentStiffness = st.oldTangentStiffness := by
  simp only [Plastic1DGap.CommitState]
  split_ifs <;> exact ⟨rfl, rfl, rfl, rfl⟩

/-- Tension side: a commit between the gap and the lower bound re-anchors the window at the
committed strain and gives an upper bound strictly below the previous one. -/
theorem Plastic1DGap.TensionInv.reanchor {st : Plastic1DGap} (h : st.TensionInv)
    (h1 : st.Gap < st.oldStrain) (h2 : st.oldStrain < st.minYieldStrain) :
    st.CommitState.minYieldStrain = st.oldStrain ∧
    st.CommitState.maxYieldStrain
      = st.fy / st.E + (st.oldStrain - st.Ratio * st.Gap) / (1 - st.Ratio) ∧
    st.CommitState.maxYieldStrain < st.maxYieldStrain := by
  have hmm := h.min_le_max
  have hR : 0 < 1 - st.Ratio := by linarith [h.Ratio_lt_one]
  have h3 : ¬ st.oldStrain > st.maxYieldStrain := not_lt.mpr (by linarith)
  have hlt : st.fy / st.E + (st.oldStrain - st.Ratio * st.Gap) / (1 - st.Ratio)
      < st.maxYieldStrain := by
    have hq : (st.oldStrain - st.Ratio * st.Gap) / (1 - st.Ratio)
        < st.maxYieldStrain - st.fy / st.E := by
      rw [div_lt_iff₀ hR]
      have hm := h.min_eq
      linarith
    linarith
  simp only [Plastic1DGap.CommitState, h.behavior, if_true, h3, if_false, h1, h2, and_self]
  exact ⟨trivial, trivial, hlt⟩

/-- Zero has no binary digit. -/
theorem bitLengthAux_zero (fuel : ℕ) : bitLengthAux fuel 0 = 0 := by
  cases fuel <;> simp [bitLengthAux]

/-- With enough fuel the digit count `k + 1` of a positive `n` satisfies
`2^k ≤ n < 2^(k+1)`. -/
theorem bitLengthAux_spec (fuel : ℕ) : ∀ n : ℕ, 0 < n → n ≤ fuel →
    ∃ k : ℕ, bitLengthAux fuel n = k + 1 ∧ 2 ^ k ≤ n ∧ n < 2 ^ (k + 1) := by
  induction fuel with
  | zero =>
    intro n h0 hle
    omega
  | succ fuel ih =>
    intro n h0 hle
    have hn : n ≠ 0 := by omega
    simp only [bitLengthAux, hn, if_false]
    by_cases h2 : n / 2 = 0
    · refine ⟨0, ?_, ?_, ?_⟩
      · rw [h2, bitLengthAux_zero]
      · simpa using h0
      · have : n < 2 := by
          by_contra hc
          have : 1 ≤ n / 2 := by
            rw [Nat.le_div_iff_mul_le (by norm_num)]
            omega
          omega
        simpa using this
    · have hpos : 0 < n / 2 := Nat.pos_of_ne_zero h2
      have hle2 : n / 2 ≤ fuel := by omega
      obtain ⟨k, hk, hlo, hhi⟩ := ih (n / 2) hpos hle2
      refine ⟨k + 1, by rw [hk], ?_, ?_⟩
      · have := (Nat.le_div_iff_mul_le (by norm_num : 0 < 2)).mp hlo
        rw [pow_succ]
        exact this
      · have := (Nat.div_lt_iff_lt_mul (by norm_num : 0 < 2)).mp hhi
        rw [pow_succ (n := k + 1)]
        exact this

/-- The digit count `k + 1` of a positive `n` satisfies `2^k ≤ n < 2^(k+1)`. -/
theorem bitLength_spec (n : ℕ) (h : 0 < n) :
    ∃ k : ℕ, bitLength n = k + 1 ∧ 2 ^ k ≤ n ∧ n < 2 ^ (k + 1) :=
  bitLengthAux_spec n n h (le_refl n)

/-- The rounded integer is within one half of the argument. -/
theorem roundHalfEven_spec (x : ℚ) : |(roundHalfEven x : ℚ) - x| ≤ 1 / 2 := by
  have h1 : (⌊x⌋ : ℚ) ≤ x := Int.floor_le x
  have h2 : x < ⌊x⌋ + 1 := Int.lt_floor_add_one x
  unfold roundHalfEven
  split_ifs with ha hb hc
  · rw [abs_le]
    constructor <;> linarith
  · rw [abs_le]
    push_cast
    constructor <;> linarith
  · rw [abs_le]
    constructor <;> linarith
  · rw [abs_le]
    push_cast
    constructor <;> linarith
/-- The binade exponent `e` of a positive rational `a` satisfies `2^e ≤ a < 2^(e+1)`. -/
theorem binade_spec (a : ℚ) (ha : 0 < a) :
    (2 : ℚ) ^ binade a ≤ a ∧ a < (2 : ℚ) ^ (binade a + 1) := by
  have hnum : 0 < a.num := Rat.num_pos.mpr ha
  have hnat : 0 < a.num.natAbs := Int.natAbs_pos.mpr hnum.ne'
  obtain ⟨kn, hkn, hn1, hn2⟩ := bitLength_spec a.num.natAbs hnat
  obtain ⟨kd, hkd, hd1, hd2⟩ := bitLength_spec a.den a.den_pos
  have hcast : ((a.num.natAbs : ℕ) : ℚ) = (a.num : ℚ) := by
    have h : ((a.num.natAbs : ℕ) : ℤ) = a.num := Int.natAbs_of_nonneg hnum.le
    calc ((a.num.natAbs : ℕ) : ℚ) = (((a.num.natAbs : ℕ) : ℤ) : ℚ) := (Int.cast_natCast _).symm
      _ = (a.num : ℚ) := by rw [h]
  have hd0 : (0 : ℚ) < a.den := by exact_mod_cast a.den_pos
  have hq : a * a.den = a.num.natAbs := by
    rw [hcast]
    exact Rat.mul_den_eq_num a
  have qn1 : (2 : ℚ) ^ kn ≤ (a.num.natAbs : ℚ) := by exact_mod_cast hn1
  have qn2 : ((a.num.natAbs : ℕ) : ℚ) < 2 ^ (kn + 1) := by exact_mod_cast hn2
  have qd1 : (2 : ℚ) ^ kd ≤ (a.den : ℚ) := by exact_mod_cast hd1
  have qd2 : ((a.den : ℕ) : ℚ) < 2 ^ (kd + 1) := by exact_mod_cast hd2
  have p1 : (0 : ℚ) < 2 ^ kd := by positivity
  have p2 : (0 : ℚ) < 2 ^ kn := by positivity
  have e0 : (bitLength a.num.natAbs : ℤ) - (bitLength a.den : ℤ) = (kn : ℤ) - kd := by
    rw [hkn, hkd]
    push_cast
    ring
  have up : a < (2 : ℚ) ^ ((kn : ℤ) - kd + 1) := by
    rw [show (kn : ℤ) - kd + 1 = ((kn + 1 : ℕ) : ℤ) - (kd : ℕ) by push_cast; ring,
      zpow_sub₀ (two_ne_zero), zpow_natCast, zpow_natCast, lt_div_iff₀ p1]
    have : a * 2 ^ kd ≤ a * a.den := mul_le_mul_of_nonneg_left qd1 ha.le
    linarith
  have lo : (2 : ℚ) ^ ((kn : ℤ) - kd - 1) ≤ a := by
    rw [show (kn : ℤ) - kd - 1 = ((kn : ℕ) : ℤ) - ((kd + 1 : ℕ) : ℤ) by push_cast; ring,
      zpow_sub₀ (two_ne_zero), zpow_natCast, zpow_natCast,
      div_le_iff₀ (by positivity : (0 : ℚ) < 2 ^ (kd + 1))]
    have : a * a.den ≤ a * 2 ^ (kd + 1) := mul_le_mul_of_nonneg_left qd2.le ha.le
    linarith
  unfold binade
  rw [e0]
  split_ifs with h
  · exact ⟨h, up⟩
  · refine ⟨lo, ?_⟩
    rw [sub_add_cancel]
    exact not_le.mp h

/-- For `q ≠ 0` the rounded value is an integer multiple `m` of the spacing
`2^(e - 52)` of the binade of `q` (`e` not below `-1022`), with `m` within one half of
`q / 2^(e - 52)`; `|q| < 2^(e+1)`, and `2^e ≤ |q|` in the normal range, so that `m` has 53
significant bits there. -/
theorem binary64_spec (q : ℚ) (hq : q ≠ 0) :
    (∃ m : ℤ, binary64 q = m * 2 ^ (max (binade |q|) (-1022) - 52) ∧
      |(m : ℚ) - q / 2 ^ (max (binade |q|) (-1022) - 52)| ≤ 1 / 2) ∧
    |q| < 2 ^ (max (binade |q|) (-1022) + 1) ∧
    (-1022 ≤ binade |q| → (2 : ℚ) ^ (max (binade |q|) (-1022)) ≤ |q|) := by
  have ha : 0 < |q| := abs_pos.mpr hq
  obtain ⟨hlo, hhi⟩ := binade_spec |q| ha
  refine ⟨⟨roundHalfEven (q / 2 ^ (max (binade |q|) (-1022) - 52)), ?_,
    roundHalfEven_spec _⟩, ?_, ?_⟩
  · simp only [binary64, hq, if_false]
  · refine lt_of_lt_of_le hhi ?_
    apply zpow_le_zpow_right₀ (by norm_num)
    have := le_max_left (binade |q|) (-1022)
    linarith
  · intro h
    rw [max_eq_left h]
    exact hlo

/-- The rounding error is at most half the spacing of the binade. -/
theorem binary64_error (q : ℚ) :
    |binary64 q - q| ≤ 2 ^ (max (binade |q|) (-1022) - 52) / 2 := by
  by_cases hq : q = 0
  · subst hq
    simp only [binary64, if_true, sub_self, abs_zero]
    positivity
  · obtain ⟨⟨m, hm, hr⟩, -, -⟩ := binary64_spec q hq
    have hu : (0 : ℚ) < 2 ^ (max (binade |q|) (-1022) - 52) := by positivity
    have : binary64 q - q
        = ((m : ℚ) - q / 2 ^ (max (binade |q|) (-1022) - 52))
          * 2 ^ (max (binade |q|) (-1022) - 52) := by
      rw [hm]
      field_simp
    rw [this, abs_mul, abs_of_pos hu]
    have := mul_le_mul_of_nonneg_right hr hu.le
    linarith

/-- A tie is rounded to the even integer. -/
theorem roundHalfEven_tie (x : ℚ) (h : x - ⌊x⌋ = 1 / 2) : roundHalfEven x % 2 = 0 := by
  have h1 : ¬ x - ⌊x⌋ < 1 / 2 := by rw [h]; exact lt_irrefl _
  have h2 : ¬ 1 / 2 < x - ⌊x⌋ := by rw [h]; exact lt_irrefl _
  simp only [roundHalfEven, h1, h2, if_false]
  split_ifs with h3
  · exact h3
  · omega

/-- The stored tolerance is the binary64 rounding of `10⁻⁶`. -/
theorem TOL_eq_binary64 : TOL = binary64 (1 / 1000000) := by decide!

/-- Sample roundings: decimal literals of the scenarios, a tie broken to the even
significand in both directions and for a negative argument, and ties among the subnormal
numbers. -/
theorem binary64_samples :
    binary64 (1/100) = 5764607523034235 / 2 ^ 59 ∧
    binary64 (1/10) = 3602879701896397 / 2 ^ 55 ∧
    binary64 (1/5) = 3602879701896397 / 2 ^ 54 ∧
    binary64 (binary64 (1/10) * binary64 (1/10)) = 1441151880758559 / 2 ^ 57 ∧
    binary64 (1/3) = 6004799503160661 / 2 ^ 54 ∧
    binary64 200 = 200 ∧
    binary64 (2 ^ 53 + 1) = 2 ^ 53 ∧
    binary64 (2 ^ 53 + 3) = 2 ^ 53 + 4 ∧
    binary64 (-(2 ^ 53 + 1)) = -2 ^ 53 ∧
    binary64 (1 / 2 ^ 1075) = 0 ∧
    binary64 (3 / 2 ^ 1075) = 1 / 2 ^ 1073 := by decide!

/-- A gap equal to the double the code stores for `1.0E-06` is not below the tolerance:
`InitialState` sets the tangent to zero, on doubles as in exact arithmetic. -/
theorem InitialState_gap_at_tolerance :
    (Plastic1DGap.construct 200 20 (binary64 (1 / 1000000)) (1/50)
      true).InitialState.oldTangentStiffness = 0 ∧
    ((Plastic1DGap.constructRounded binary64 200 20 (binary64 (1 / 1000000))
      (binary64 (1/50)) true).InitialStateRounded binary64).oldTangentStiffness = 0 := by
  decide!

/-- Scenario of the specification on doubles: the committed bounds are `0.2` and
`0x1.923a29c779a6cp-4`, one unit in the last place above the double nearest to `0.0982`;
a re-anchoring commit at `0.05` gives the upper bound `0x1.34df30b136f63p-3`; a re-anchoring
commit at the double nearest to `0.0982`, which lies strictly between `Gap` and
`minYieldStrain`, gives back the upper bound `0.2`. -/
theorem roundedScenario_values :
    roundedScenario.maxYieldStrain = 3602879701896397 / 2 ^ 54 ∧
    roundedScenario.minYieldStrain = 1769013933631131 / 2 ^ 54 ∧
    roundedScenario.oldStress = 1432707631457239 / 2 ^ 46 ∧
    ((roundedScenario.UpdateStateRounded binary64 (binary64 (1/20)) 0).CommitStateRounded
      binary64).maxYieldStrain = 5433730815717219 / 2 ^ 55 ∧
    binary64 (491/5000) = 7076055734524523 / 2 ^ 56 ∧
    roundedScenario.Gap < binary64 (491/5000) ∧
    binary64 (491/5000) < roundedScenario.minYieldStrain ∧
    ((roundedScenario.UpdateStateRounded binary64 (binary64 (491/5000)) 0).CommitStateRounded
      binary64).maxYieldStrain = roundedScenario.maxYieldStrain := by
  decide!

/-- On doubles the stress replayed after a commit can differ from the committed one in the
last place: with the parameters of the specification and the strain `0.25` the committed
stress is `0x1.48f5c28f5c28fp+4` and the replayed one `0x1.48f5c28f5c290p+4`. -/
theorem rounded_replay_stress :
    (((Plastic1DGap.constructRounded binary64 200 20 (binary64 (1/100)) (binary64 (1/50))
      true).UpdateStateRounded binary64 (1/4) 0).CommitStateRounded binary64).oldStress
      = 5787125521171087 / 2 ^ 48 ∧
    ((((((Plastic1DGap.constructRounded binary64 200 20 (binary64 (1/100)) (binary64 (1/50))
      true).UpdateStateRounded binary64 (1/4) 0).CommitStateRounded binary64
      ).UpdateStateRounded binary64 0 0).ReverseState).UpdateStateRounded binary64 (1/4)
      0).oldStress = 361695345073193 / 2 ^ 44 := by
  decide!

/-- With the identity as rounding the rounded constructor is the exact one. -/
theorem Plastic1DGap.constructRounded_id (E Sy gap eta : ℚ) (b : Bool) :
    Plastic1DGap.constructRounded id E Sy gap eta b = Plastic1DGap.construct E Sy gap eta b :=
  rfl

/-- With the identity as rounding every rounded call is the exact one. -/
theorem Plastic1DGap.callRounded_id (st : Plastic1DGap) (c : Call) :
    st.callRounded id c = st.call c := by
  cases c <;> rfl

/-- With the identity as rounding a rounded run is the exact run. -/
theorem Plastic1DGap.runRounded_id (calls : List Call) (st : Plastic1DGap) :
    st.runRounded id calls = st.run calls := by
  induction calls generalizing st with
  | nil => rfl
  | cons c cs ih =>
    simp only [Plastic1DGap.runRounded, Plastic1DGap.run, List.foldl_cons] at ih ⊢
    rw [Plastic1DGap.callRounded_id]
    exact ih (st.call c)

/-! ## Properties of the material law -/

/-- C1, as stated, fails on doubles.  After `Plastic1DGap(200, 0, 0.01, 0.1, true)`,
`UpdateState(0.2)`, `CommitState`, `UpdateState(0.1*0.1)`, `CommitState` (the sample
history), the calls `UpdateState(1.0)`, `ReverseState`, `CommitState` commit the rolled-back
strain with the stress of the abandoned trial, and `UpdateState(0.0)`, whose strain `0` does
not exceed `Gap = 0.01`, gives `oldStress = 5010254585449677 / 2^48`, the double `17.8`. -/
theorem gap_open_rounded_counterexample :
    roundedTensionSample.Behavior = true ∧
    0 < roundedTensionSample.E ∧
    0 ≤ roundedTensionSample.Ratio ∧ roundedTensionSample.Ratio < 1 ∧
    roundedTensionSample.Gap = 5764607523034235 / 2 ^ 59 ∧
    (0 : ℚ) ≤ roundedTensionSample.Gap ∧
    ((((roundedTensionSample.UpdateStateRounded binary64 1 0).ReverseState
      ).CommitStateRounded binary64).UpdateStateRounded binary64 0 0).oldStress
      = 5010254585449677 / 2 ^ 48 ∧
    ((((roundedTensionSample.UpdateStateRounded binary64 1 0).ReverseState
      ).CommitStateRounded binary64).UpdateStateRounded binary64 0 0).oldStress ≠ 0 := by
  decide!

/-- C1, amended. No force while the gap is open, in exact arithmetic: with every operation
of the code exact, in every state reachable from construction with `E > 0` and
`0 ≤ Ratio < 1` by any sequence of `UpdateState`, `CommitState`, `ReverseState` and
`InitialState`, a trial strain that does not exceed the gap (`strain ≤ Gap` when `Behavior`
is true, `strain ≥ Gap` when it is false) makes `UpdateState` set `oldStress = 0`. -/
theorem gap_open_no_stress (st : Plastic1DGap) (strain : ℚ) (cond : ℕ)
    (hreach : st.Reachable)
    (hgap : if st.Behavior then strain ≤ st.Gap else st.Gap ≤ strain) :
    (st.UpdateState strain cond).oldStress = 0 := by
  rcases hreach.tension_or_mirror with ht | ⟨m, hm, rfl⟩
  · rw [ht.behavior] at hgap
    exact ht.gap_open strain cond hgap
  · have hb : m.mirror.Behavior = false := by
      simp [Plastic1DGap.mirror, hm.behavior]
    rw [hb] at hgap
    have hg : -strain ≤ m.Gap := by
      have : -m.Gap ≤ strain := hgap
      linarith
    rw [Plastic1DGap.UpdateState_of_mirror]
    show -(m.UpdateState (-strain) cond).oldStress = 0
    rw [hm.gap_open (-strain) cond hg, neg_zero]

/-- C1, amended, at a concrete input: the sample tension-side object, after yielding and committing,
receives a trial strain equal to the gap. -/
theorem gap_open_no_stress_witness : (tensionSample.UpdateState (1/100) 0).oldStress = 0 :=
  gap_open_no_stress tensionSample (1/100) 0
    ⟨200, 20, 1/100, 1/50, true, [Call.update (1/5) 0, Call.commit],
      by norm_num, by norm_num, by norm_num, rfl⟩
    (by norm_num [tensionSample, Plastic1DGap.run, Plastic1DGap.call, Plastic1DGap.construct,
          Plastic1DGap.UpdateState, Plastic1DGap.CommitState, behaviorSign, boolToDouble,
          abs_div])

/-- C2, as stated, fails on the compression side.  After `Plastic1DGap(200, 0, 0.01, 0.1,
false)`, `UpdateState(-0.2)`, `CommitState`, `UpdateState(-(0.1*0.1))`, `CommitState` on
doubles, `minYieldStrain = -1441151880758559 / 2^57` lies one unit in the last place below
`maxYieldStrain = -5764607523034235 / 2^59`.  The trial strain equal to `minYieldStrain`
satisfies `minYieldStrain ≤ strain ≤ maxYieldStrain`, yet `UpdateState` takes the hardening
branch: tangent `20 = Ratio*E` instead of `E = 200`, stress `-5 / 2^57` instead of
`E*(strain - minYieldStrain) = 0`. -/
theorem elastic_region_rounded_counterexample :
    roundedCompressionSample.Behavior = false ∧
    roundedCompressionSample.E = 200 ∧
    roundedCompressionSample.minYieldStrain = -(1441151880758559 / 2 ^ 57) ∧
    roundedCompressionSample.maxYieldStrain = -(5764607523034235 / 2 ^ 59) ∧
    roundedCompressionSample.minYieldStrain ≤ roundedCompressionSample.minYieldStrain ∧
    roundedCompressionSample.minYieldStrain ≤ roundedCompressionSample.maxYieldStrain ∧
    (roundedCompressionSample.UpdateStateRounded binary64
      roundedCompressionSample.minYieldStrain 0).oldTangentStiffness = 20 ∧
    (roundedCompressionSample.UpdateStateRounded binary64
      roundedCompressionSample.minYieldStrain 0).oldStress = -(5 / 2 ^ 57) ∧
    binary64 (roundedCompressionSample.E * binary64 (roundedCompressionSample.minYieldStrain
      - roundedCompressionSample.minYieldStrain)) = 0 := by
  decide!

/-- C2, amended. Elastic region containment: for every state and trial strain, when
`Behavior` is true and `minYieldStrain ≤ strain ≤ maxYieldStrain`, or `Behavior` is false
and `maxYieldStrain ≤ strain ≤ minYieldStrain`, `UpdateState` sets
`oldStress = E*(strain - minYieldStrain)` and `oldTangentStiffness = E`; this holds in exact
arithmetic and, the product and the difference being rounded, under every rounding of the
operations. -/
theorem elastic_region_containment (st : Plastic1DGap) (strain : ℚ) (cond : ℕ)
    (hwin : if st.Behavior then st.minYieldStrain ≤ strain ∧ strain ≤ st.maxYieldStrain
      else st.maxYieldStrain ≤ strain ∧ strain ≤ st.minYieldStrain) :
    ((st.UpdateState strain cond).oldStress = st.E * (strain - st.minYieldStrain) ∧
      (st.UpdateState strain cond).oldTangentStiffness = st.E) ∧
    ∀ rnd : ℚ → ℚ,
      (st.UpdateStateRounded rnd strain cond).oldStress
        = rnd (st.E * rnd (strain - st.minYieldStrain)) ∧
      (st.UpdateStateRounded rnd strain cond).oldTangentStiffness = st.E := by
  obtain ⟨E, fy, Gap, R, b, ns, os, sg, tg, mn, mx⟩ := st
  cases b
  · simp only [Bool.false_eq_true, if_false] at hwin
    have h1 : ¬ strain < mx := not_lt.mpr hwin.1
    have h2 : ¬ strain > mn := not_lt.mpr hwin.2
    simp only [Plastic1DGap.UpdateState, Plastic1DGap.UpdateStateRounded, Bool.false_eq_true,
      if_false, h1, h2, and_self, implies_true]
  · simp only [if_true] at hwin
    have h1 : ¬ strain > mx := not_lt.mpr hwin.2
    have h2 : ¬ strain < mn := not_lt.mpr hwin.1
    simp only [Plastic1DGap.UpdateState, Plastic1DGap.UpdateStateRounded, if_true, if_false,
      h1, h2, and_self, implies_true]

/-- C2, amended, at a concrete input: the compression-side object built from `E = 200`,
`Sy = 20`, `gap = 1/100`, `eta = 1/50` has bounds `maxYieldStrain = -11/100` and
`minYieldStrain = -1/100`; the trial strain `-1/20` between them gives stress `-8`. -/
theorem elastic_region_containment_witness :
    (((Plastic1DGap.construct 200 20 (1/100) (1/50) false).UpdateState (-1/20) 0).oldStress
      = (Plastic1DGap.construct 200 20 (1/100) (1/50) false).E
        * (-1/20 - (Plastic1DGap.construct 200 20 (1/100) (1/50) false).minYieldStrain) ∧
    ((Plastic1DGap.construct 200 20 (1/100) (1/50) false).UpdateState (-1/20)
      0).oldTangentStiffness = (Plastic1DGap.construct 200 20 (1/100) (1/50) false).E) ∧
    ∀ rnd : ℚ → ℚ,
      ((Plastic1DGap.construct 200 20 (1/100) (1/50) false).UpdateStateRounded rnd (-1/20)
        0).oldStress
        = rnd ((Plastic1DGap.construct 200 20 (1/100) (1/50) false).E
          * rnd (-1/20 - (Plastic1DGap.construct 200 20 (1/100) (1/50) false).minYieldStrain)) ∧
      ((Plastic1DGap.construct 200 20 (1/100) (1/50) false).UpdateStateRounded rnd (-1/20)
        0).oldTangentStiffness = (Plastic1DGap.construct 200 20 (1/100) (1/50) false).E :=
  elastic_region_containment (Plastic1DGap.construct 200 20 (1/100) (1/50) false) (-1/20) 0
    (by norm_num [Plastic1DGap.construct, behaviorSign, boolToDouble, abs_div])

/-- C3. Hardening branch continuity: in every state reachable from construction with
`E > 0` and `0 ≤ Ratio < 1`, the hardening formula and the elastic formula agree at
`strain = maxYieldStrain`. -/
theorem hardening_branch_continuity (st : Plastic1DGap) (hreach : st.Reachable) :
    st.fy + (st.maxYieldStrain - st.Gap - st.fy / st.E) * st.Ratio * st.E
      = st.E * (st.maxYieldStrain - st.minYieldStrain) := by
  rcases hreach.tension_or_mirror with ht | ⟨m, hm, rfl⟩
  · exact ht.continuity
  · have h := hm.continuity
    show -m.fy + (-m.maxYieldStrain - -m.Gap - -m.fy / m.E) * m.Ratio * m.E
      = m.E * (-m.maxYieldStrain - -m.minYieldStrain)
    rw [neg_div]
    linear_combination -h

/-- C3 at a concrete input: the sample compression-side object after a yield excursion and
a re-anchoring commit. -/
theorem hardening_branch_continuity_witness :
    compressionSample.fy
      + (compressionSample.maxYieldStrain - compressionSample.Gap
          - compressionSample.fy / compressionSample.E)
        * compressionSample.Ratio * compressionSample.E
      = compressionSample.E
        * (compressionSample.maxYieldStrain - compressionSample.minYieldStrain) :=
  hardening_branch_continuity compressionSample
    ⟨200, 20, 1/100, 1/50, false,
      [Call.update (-1/5) 0, Call.commit, Call.update (-1/20) 0, Call.commit],
      by norm_num, by norm_num, by norm_num, rfl⟩

/-- C4, as stated, fails for the tangent: on a fresh tension-side object (`E = 200`,
`Sy = 20`, `gap = 1/100`, `eta = 1/50`), `UpdateState(1/5)` then `CommitState` commits the
hardening tangent `4` and stress `509/25`; after a trial `UpdateState(0)`, `ReverseState` and
`UpdateState(1/5)` the stress is again `509/25` but the tangent is `200`. -/
theorem reverse_tangent_counterexample :
    (((Plastic1DGap.construct 200 20 (1/100) (1/50) true).UpdateState (1/5) 0).CommitState
      ).oldTangentStiffness = 4 ∧
    ((((((Plastic1DGap.construct 200 20 (1/100) (1/50) true).UpdateState (1/5) 0).CommitState
      ).UpdateState 0 0).ReverseState).UpdateState (1/5) 0).oldTangentStiffness = 200 ∧
    ((((((Plastic1DGap.construct 200 20 (1/100) (1/50) true).UpdateState (1/5) 0).CommitState
      ).UpdateState 0 0).ReverseState).UpdateState (1/5) 0).oldTangentStiffness
      ≠ (((Plastic1DGap.construct 200 20 (1/100) (1/50) true).UpdateState (1/5) 0).CommitState
      ).oldTangentStiffness := by
  norm_num [Plastic1DGap.construct, Plastic1DGap.UpdateState, Plastic1DGap.CommitState,
    Plastic1DGap.ReverseState, behaviorSign, boolToDouble, abs_div]

/-- C4, amended. Reverse idempotence, in exact arithmetic: with every operation of the code
exact, for every reachable state (`E > 0`, `0 ≤ Ratio < 1`) and every strain `s`, after
`UpdateState(s); CommitState`, any trial `UpdateState(t)`, `ReverseState` and
`UpdateState(s)`, `oldStress` equals the value it had at the commit; `oldTangentStiffness`
equals its value at the commit when that commit left `minYieldStrain` and `maxYieldStrain`
unchanged, and equals `E` when the commit moved a bound. -/
theorem reverse_then_update_reproduces (st : Plastic1DGap) (s t : ℚ) (c1 c2 c3 : ℕ)
    (hreach : st.Reachable) :
    ((((st.UpdateState s c1).CommitState.UpdateState t c2).ReverseState).UpdateState s
        c3).oldStress = (st.UpdateState s c1).CommitState.oldStress ∧
    (if (st.UpdateState s c1).CommitState.minYieldStrain = st.minYieldStrain ∧
        (st.UpdateState s c1).CommitState.maxYieldStrain = st.maxYieldStrain
      then ((((st.UpdateState s c1).CommitState.UpdateState t c2).ReverseState).UpdateState s
        c3).oldTangentStiffness = (st.UpdateState s c1).CommitState.oldTangentStiffness
      else ((((st.UpdateState s c1).CommitState.UpdateState t c2).ReverseState).UpdateState s
        c3).oldTangentStiffness = st.E) := by
  rw [Plastic1DGap.UpdateState_ReverseState_UpdateState]
  rcases hreach.tension_or_mirror with ht | ⟨m, hm, rfl⟩
  · exact ht.commit_update s c1 c3
  · have h := hm.commit_update (-s) c1 c3
    simp only [Plastic1DGap.UpdateState_of_mirror, Plastic1DGap.CommitState_mirror]
    obtain ⟨_, _, _, _, _, _, _, h8, h9, h10, h11⟩ :=
      Plastic1DGap.mirror_fields ((m.UpdateState (-s) c1).CommitState.UpdateState (-s) c3)
    obtain ⟨_, _, _, _, _, _, _, k8, k9, k10, k11⟩ :=
      Plastic1DGap.mirror_fields (m.UpdateState (-s) c1).CommitState
    obtain ⟨m1, _, _, _, _, _, _, _, _, m10, m11⟩ := Plastic1DGap.mirror_fields m
    simp only [h8, h9, k8, k9, k10, k11, m1, m10, m11, neg_inj]
    exact h

/-- C4, amended, at a concrete input: the sample compression-side object, committed strain
`-3/10` (a new extreme, so the commit moves the bounds) and abandoned trial `0`. -/
theorem reverse_then_update_reproduces_witness :
    ((((compressionSample.UpdateState (-3/10) 0).CommitState.UpdateState 0 1
        ).ReverseState).UpdateState (-3/10) 2).oldStress
      = (compressionSample.UpdateState (-3/10) 0).CommitState.oldStress ∧
    (if (compressionSample.UpdateState (-3/10) 0).CommitState.minYieldStrain
          = compressionSample.minYieldStrain ∧
        (compressionSample.UpdateState (-3/10) 0).CommitState.maxYieldStrain
          = compressionSample.maxYieldStrain
      then ((((compressionSample.UpdateState (-3/10) 0).CommitState.UpdateState 0 1
        ).ReverseState).UpdateState (-3/10) 2).oldTangentStiffness
          = (compressionSample.UpdateState (-3/10) 0).CommitState.oldTangentStiffness
      else ((((compressionSample.UpdateState (-3/10) 0).CommitState.UpdateState 0 1
        ).ReverseState).UpdateState (-3/10) 2).oldTangentStiffness = compressionSample.E) :=
  reverse_then_update_reproduces compressionSample (-3/10) 0 0 1 2
    ⟨200, 20, 1/100, 1/50, false,
      [Call.update (-1/5) 0, Call.commit, Call.update (-1/20) 0, Call.commit],
      by norm_num, by norm_num, by norm_num, rfl⟩

/-- C5. Commit monotonic widening: for `Behavior = true`, `E ≠ 0` and every state with
`oldStrain > maxYieldStrain`, after `CommitState` the bounds satisfy
`maxYieldStrain = oldStrain` and `maxYieldStrain - minYieldStrain = oldStress/E`. -/
theorem commit_monotonic_widening (st : Plastic1DGap) (hb : st.Behavior = true)
    (_hE : st.E ≠ 0) (hgt : st.oldStrain > st.maxYieldStrain) :
    st.CommitState.maxYieldStrain = st.oldStrain ∧
    st.CommitState.maxYieldStrain - st.CommitState.minYieldStrain = st.oldStress / st.E := by
  simp only [Plastic1DGap.CommitState, hb, if_true, hgt, sub_sub_cancel, and_self]

/-- C5 at a concrete input: fresh tension-side object (`E = 200`, `Sy = 20`, `gap = 1/100`,
`eta = 1/50`) with trial strain `1/5` beyond the upper bound `11/100`. -/
theorem commit_monotonic_widening_witness :
    ((Plastic1DGap.construct 200 20 (1/100) (1/50) true).UpdateState (1/5) 0
      ).CommitState.maxYieldStrain
      = ((Plastic1DGap.construct 200 20 (1/100) (1/50) true).UpdateState (1/5) 0).oldStrain ∧
    ((Plastic1DGap.construct 200 20 (1/100) (1/50) true).UpdateState (1/5) 0
      ).CommitState.maxYieldStrain
      - ((Plastic1DGap.construct 200 20 (1/100) (1/50) true).UpdateState (1/5) 0
      ).CommitState.minYieldStrain
      = ((Plastic1DGap.construct 200 20 (1/100) (1/50) true).UpdateState (1/5) 0).oldStress
        / ((Plastic1DGap.construct 200 20 (1/100) (1/50) true).UpdateState (1/5) 0).E :=
  commit_monotonic_widening
    ((Plastic1DGap.construct 200 20 (1/100) (1/50) true).UpdateState (1/5) 0)
    (by norm_num [Plastic1DGap.construct, Plastic1DGap.UpdateState, behaviorSign,
      boolToDouble, abs_div])
    (by norm_num [Plastic1DGap.construct, Plastic1DGap.UpdateState, behaviorSign,
      boolToDouble, abs_div])
    (by norm_num [Plastic1DGap.construct, Plastic1DGap.UpdateState, behaviorSign,
      boolToDouble, abs_div])

/-- C6, as stated, fails for the tangent: on the object built from `E = 200`, `Sy = 20`,
`gap = 1/100`, `eta = 1/50`, `Behavior = true`, the constructor gives
`oldTangentStiffness = 200` while `InitialState` gives `0`, the gap `1/100` not being
below `TOL`. -/
theorem initial_state_tangent_counterexample :
    (Plastic1DGap.construct 200 20 (1/100) (1/50) true).oldTangentStiffness = 200 ∧
    (Plastic1DGap.construct 200 20 (1/100) (1/50) true).InitialState.oldTangentStiffness = 0 ∧
    (Plastic1DGap.construct 200 20 (1/100) (1/50) true).InitialState.oldTangentStiffness
      ≠ (Plastic1DGap.construct 200 20 (1/100) (1/50) true).oldTangentStiffness := by
  norm_num [Plastic1DGap.construct, Plastic1DGap.InitialState, behaviorSign, boolToDouble,
    abs_div, TOL]

/-- C6, amended. For every state of a material built with parameters
`(E, Sy, gap, eta, behavior)`, `InitialState` gives `oldStrain`, `newStrain`, `oldStress`,
`minYieldStrain` and `maxYieldStrain` the values the constructor gave them, and sets
`oldTangentStiffness` to `E` when `|Gap| < TOL` and to `0` otherwise, `TOL` being the
double the code stores for `1.0E-06`, `4722366482869645 / 2^72`. -/
theorem initial_state_rewind (E Sy gap eta : ℚ) (behavior : Bool) (calls : List Call) :
    ((Plastic1DGap.construct E Sy gap eta behavior).run calls).InitialState.oldStrain
      = (Plastic1DGap.construct E Sy gap eta behavior).oldStrain ∧
    ((Plastic1DGap.construct E Sy gap eta behavior).run calls).InitialState.newStrain
      = (Plastic1DGap.construct E Sy gap eta behavior).newStrain ∧
    ((Plastic1DGap.construct E Sy gap eta behavior).run calls).InitialState.oldStress
      = (Plastic1DGap.construct E Sy gap eta behavior).oldStress ∧
    ((Plastic1DGap.construct E Sy gap eta behavior).run calls).InitialState.minYieldStrain
      = (Plastic1DGap.construct E Sy gap eta behavior).minYieldStrain ∧
    ((Plastic1DGap.construct E Sy gap eta behavior).run calls).InitialState.maxYieldStrain
      = (Plastic1DGap.construct E Sy gap eta behavior).maxYieldStrain ∧
    ((Plastic1DGap.construct E Sy gap eta behavior).run calls).InitialState.oldTangentStiffness
      = (if |(Plastic1DGap.construct E Sy gap eta behavior).Gap| < TOL then E else 0) := by
  obtain ⟨h1, h2, h3, _, _⟩ :=
    Plastic1DGap.run_params calls (Plastic1DGap.construct E Sy gap eta behavior)
  simp only [Plastic1DGap.InitialState, h1, h2, h3]
  refine ⟨rfl, rfl, rfl, rfl, rfl, ?_⟩
  by_cases hg : |(Plastic1DGap.construct E Sy gap eta behavior).Gap| < TOL
  · simp only [hg, decide_True, boolToDouble, if_true, mul_one]
    rfl
  · simp only [hg, decide_False, boolToDouble, if_false, mul_zero, Bool.false_eq_true]

/-- C7. Reset law: for every state, after `InitialState`, `minYieldStrain = Gap`,
`maxYieldStrain = Gap + fy/E`, `oldStrain = 0` and `oldStress = 0`, and the parameters
`E`, `fy`, `Gap`, `Ratio`, `Behavior` are unchanged. -/
theorem reset_law (st : Plastic1DGap) :
    st.InitialState.minYieldStrain = st.Gap ∧
    st.InitialState.maxYieldStrain = st.Gap + st.fy / st.E ∧
    st.InitialState.oldStrain = 0 ∧
    st.InitialState.oldStress = 0 ∧
    st.InitialState.E = st.E ∧ st.InitialState.fy = st.fy ∧ st.InitialState.Gap = st.Gap ∧
    st.InitialState.Ratio = st.Ratio ∧ st.InitialState.Behavior = st.Behavior :=
  ⟨rfl, rfl, rfl, rfl, rfl, rfl, rfl, rfl, rfl⟩

/-- C8. `CopyMaterial` returns a fresh construction-time instance: for every state reached
from `Plastic1DGap(E, Sy, gap, eta, behavior)` by any sequence of calls, the copy equals the
object the constructor produced for the original; in particular the constructor's sign
logic applied to the already signed `fy` and `Gap` does not change them. -/
theorem copy_material_is_fresh (E Sy gap eta : ℚ) (behavior : Bool) (calls : List Call) :
    ((Plastic1DGap.construct E Sy gap eta behavior).run calls).CopyMaterial
      = Plastic1DGap.construct E Sy gap eta behavior ∧
    ((Plastic1DGap.construct E Sy gap eta behavior).run calls).CopyMaterial.fy
      = ((Plastic1DGap.construct E Sy gap eta behavior).run calls).fy ∧
    ((Plastic1DGap.construct E Sy gap eta behavior).run calls).CopyMaterial.Gap
      = ((Plastic1DGap.construct E Sy gap eta behavior).run calls).Gap := by
  obtain ⟨h1, h2, h3, h4, h5⟩ :=
    Plastic1DGap.run_params calls (Plastic1DGap.construct E Sy gap eta behavior)
  have hc : ((Plastic1DGap.construct E Sy gap eta behavior).run calls).CopyMaterial
      = Plastic1DGap.construct E Sy gap eta behavior := by
    simp only [Plastic1DGap.CopyMaterial, h1, h2, h3, h4, h5]
    simp only [Plastic1DGap.construct, behaviorSign_idem]
  refine ⟨hc, ?_, ?_⟩
  · rw [hc, h2]
  · rw [hc, h3]

/-- C9. `UpdateState` is non-committing: for every state and trial strain it leaves
`minYieldStrain`, `maxYieldStrain`, `newStrain` and the parameters `E`, `fy`, `Gap`,
`Ratio`, `Behavior` unchanged, and sets `oldStrain` to the trial strain. -/
theorem update_state_non_committing (st : Plastic1DGap) (strain : ℚ) (cond : ℕ) :
    (st.UpdateState strain cond).minYieldStrain = st.minYieldStrain ∧
    (st.UpdateState strain cond).maxYieldStrain = st.maxYieldStrain ∧
    (st.UpdateState strain cond).newStrain = st.newStrain ∧
    (st.UpdateState strain cond).E = st.E ∧
    (st.UpdateState strain cond).fy = st.fy ∧
    (st.UpdateState strain cond).Gap = st.Gap ∧
    (st.UpdateState strain cond).Ratio = st.Ratio ∧
    (st.UpdateState strain cond).Behavior = st.Behavior ∧
    (st.UpdateState strain cond).oldStrain = strain := by
  simp only [Plastic1DGap.UpdateState]
  split_ifs <;> exact ⟨rfl, rfl, rfl, rfl, rfl, rfl, rfl, rfl, rfl⟩

/-- C10. `UpdateState` is idempotent and independent of earlier trials: for every state,
all strains `s`, `t` and all flags, `UpdateState(s)` after `UpdateState(t)` gives exactly the
state `UpdateState(s)` gives directly, whatever the flags; so applying `UpdateState(s)` twice
equals applying it once. -/
theorem update_state_idempotent (st : Plastic1DGap) (s t : ℚ) (c d e : ℕ) :
    (st.UpdateState t c).UpdateState s d = st.UpdateState s e ∧
    (st.UpdateState s c).UpdateState s d = st.UpdateState s c := by
  have key : ∀ (u : ℚ) (a b k : ℕ), (st.UpdateState u a).UpdateState s b = st.UpdateState s k := by
    intro u a b k
    obtain ⟨E, fy, Gap, R, bh, ns, os, sg, tg, mn, mx⟩ := st
    cases bh
    · by_cases h1 : u < mx
      · simp only [Plastic1DGap.UpdateState, if_false, Bool.false_eq_true, h1, if_true]
      · by_cases h2 : u > mn
        · simp only [Plastic1DGap.UpdateState, if_false, Bool.false_eq_true, h1, h2, if_true]
        · simp only [Plastic1DGap.UpdateState, if_false, Bool.false_eq_true, h1, h2]
    · by_cases h1 : u > mx
      · simp only [Plastic1DGap.UpdateState, h1, if_true]
      · by_cases h2 : u < mn
        · simp only [Plastic1DGap.UpdateState, h1, h2, if_true, if_false]
        · simp only [Plastic1DGap.UpdateState, h1, h2, if_true, if_false]
  exact ⟨key t c d e, key s c d c⟩

/-- C11. `Behavior = false` is the exact mirror of `Behavior = true`: with `mirror` negating
`fy`, `Gap`, `oldStrain`, `newStrain`, `oldStress`, `minYieldStrain`, `maxYieldStrain`,
flipping `Behavior` and keeping `E`, `Ratio` and `oldTangentStiffness`, the constructor with
`behavior = false` is the mirror of the constructor with `behavior = true`, and for every
state and strain `UpdateState(-s)`, `CommitState`, `ReverseState` and `InitialState` applied
to the mirrored state give the mirror of what they give on the state itself. -/
theorem behavior_false_is_exact_mirror (E Sy gap eta : ℚ) (st : Plastic1DGap) (s : ℚ)
    (c : ℕ) :
    Plastic1DGap.construct E Sy gap eta false
      = (Plastic1DGap.construct E Sy gap eta true).mirror ∧
    st.mirror.UpdateState (-s) c = (st.UpdateState s c).mirror ∧
    st.mirror.CommitState = st.CommitState.mirror ∧
    st.mirror.ReverseState = st.ReverseState.mirror ∧
    st.mirror.InitialState = st.InitialState.mirror ∧
    (st.mirror.E = st.E ∧ st.mirror.fy = -st.fy ∧ st.mirror.Gap = -st.Gap ∧
      st.mirror.Ratio = st.Ratio ∧ st.mirror.Behavior = (!st.Behavior) ∧
      st.mirror.newStrain = -st.newStrain ∧ st.mirror.oldStrain = -st.oldStrain ∧
      st.mirror.oldStress = -st.oldStress ∧
      st.mirror.oldTangentStiffness = st.oldTangentStiffness ∧
      st.mirror.minYieldStrain = -st.minYieldStrain ∧
      st.mirror.maxYieldStrain = -st.maxYieldStrain) := by
  refine ⟨?_, st.UpdateState_mirror s c, st.CommitState_mirror, st.ReverseState_mirror,
    st.InitialState_mirror, st.mirror_fields⟩
  rw [Plastic1DGap.construct_mirror]
  rfl

/-- C14. Concrete scenario in exact rational arithmetic: the constructor with `E = 200`,
`Sy = 20`, `gap = 1/100`, `eta = 1/50`, `Behavior = true` gives `fy = 20`, `Gap = 1/100`,
`minYieldStrain = 1/100`, `maxYieldStrain = 11/100`; `UpdateState(1/20)` gives stress `8` and
tangent `200`; `CommitState` then leaves both bounds unchanged; `UpdateState(1/5)` gives
stress `509/25 = 20.36` and tangent `4`; `CommitState` then gives `maxYieldStrain = 1/5` and
`minYieldStrain = 491/5000 = 0.0982`. -/
theorem concrete_scenario :
    (Plastic1DGap.construct 200 20 (1/100) (1/50) true).fy = 20 ∧
    (Plastic1DGap.construct 200 20 (1/100) (1/50) true).Gap = 1/100 ∧
    (Plastic1DGap.construct 200 20 (1/100) (1/50) true).minYieldStrain = 1/100 ∧
    (Plastic1DGap.construct 200 20 (1/100) (1/50) true).maxYieldStrain = 11/100 ∧
    ((Plastic1DGap.construct 200 20 (1/100) (1/50) true).UpdateState (1/20) 0).oldStress = 8 ∧
    ((Plastic1DGap.construct 200 20 (1/100) (1/50) true).UpdateState (1/20)
      0).oldTangentStiffness = 200 ∧
    ((Plastic1DGap.construct 200 20 (1/100) (1/50) true).UpdateState (1/20)
      0).CommitState.minYieldStrain = 1/100 ∧
    ((Plastic1DGap.construct 200 20 (1/100) (1/50) true).UpdateState (1/20)
      0).CommitState.maxYieldStrain = 11/100 ∧
    ((((Plastic1DGap.construct 200 20 (1/100) (1/50) true).UpdateState (1/20)
      0).CommitState).UpdateState (1/5) 0).oldStress = 509/25 ∧
    ((((Plastic1DGap.construct 200 20 (1/100) (1/50) true).UpdateState (1/20)
      0).CommitState).UpdateState (1/5) 0).oldTangentStiffness = 4 ∧
    ((((Plastic1DGap.construct 200 20 (1/100) (1/50) true).UpdateState (1/20)
      0).CommitState).UpdateState (1/5) 0).CommitState.maxYieldStrain = 1/5 ∧
    ((((Plastic1DGap.construct 200 20 (1/100) (1/50) true).UpdateState (1/20)
      0).CommitState).UpdateState (1/5) 0).CommitState.minYieldStrain = 491/5000 := by
  norm_num [Plastic1DGap.construct, Plastic1DGap.UpdateState, Plastic1DGap.CommitState,
    behaviorSign, boolToDouble, abs_div]

/-- C15. Sign convention invariant: for all inputs `(E, Sy, gap, eta, behavior)` of any
sign, the constructor sets `fy = |Sy|` and `Gap = |gap|` when `behavior` is true and
`fy = -|Sy|` and `Gap = -|gap|` when it is false, so `fy` and `Gap` never have opposite
signs; and `UpdateState`, `CommitState`, `ReverseState` and `InitialState` never change `E`,
`fy`, `Gap`, `Ratio` or `Behavior`. -/
theorem sign_convention_invariant (E Sy gap eta : ℚ) (behavior : Bool) (st : Plastic1DGap)
    (s : ℚ) (c : ℕ) :
    (Plastic1DGap.construct E Sy gap eta behavior).fy = (if behavior then |Sy| else -|Sy|) ∧
    (Plastic1DGap.construct E Sy gap eta behavior).Gap
      = (if behavior then |gap| else -|gap|) ∧
    0 ≤ (Plastic1DGap.construct E Sy gap eta behavior).fy
      * (Plastic1DGap.construct E Sy gap eta behavior).Gap ∧
    (st.UpdateState s c).sameParameters st ∧
    st.CommitState.sameParameters st ∧
    st.ReverseState.sameParameters st ∧
    st.InitialState.sameParameters st := by
  refine ⟨?_, ?_, ?_, st.call_params (Call.update s c), st.call_params Call.commit,
    st.call_params Call.reverse, st.call_params Call.initial⟩
  · cases behavior <;> simp [Plastic1DGap.construct, behaviorSign, boolToDouble]
  · cases behavior <;> simp [Plastic1DGap.construct, behaviorSign, boolToDouble]
  · have h := mul_nonneg (abs_nonneg Sy) (abs_nonneg gap)
    cases behavior <;> simp [Plastic1DGap.construct, behaviorSign, boolToDouble] <;>
      linarith

/-- C16. `ReverseState` only rolls back the strain: for every state it sets
`oldStrain = newStrain` and leaves `newStrain`, `oldStress`, `oldTangentStiffness`,
`minYieldStrain`, `maxYieldStrain` and all parameters unchanged; and `CommitState` sets
`newStrain = oldStrain` while leaving `oldStrain`, `oldStress` and `oldTangentStiffness`
unchanged. -/
theorem reverse_state_rolls_back_strain_only (st : Plastic1DGap) :
    st.ReverseState.oldStrain = st.newStrain ∧
    st.ReverseState.newStrain = st.newStrain ∧
    st.ReverseState.oldStress = st.oldStress ∧
    st.ReverseState.oldTangentStiffness = st.oldTangentStiffness ∧
    st.ReverseState.minYieldStrain = st.minYieldStrain ∧
    st.ReverseState.maxYieldStrain = st.maxYieldStrain ∧
    st.ReverseState.sameParameters st ∧
    st.CommitState.newStrain = st.oldStrain ∧
    st.CommitState.oldStrain = st.oldStrain ∧
    st.CommitState.oldStress = st.oldStress ∧
    st.CommitState.oldTangentStiffness = st.oldTangentStiffness :=
  ⟨rfl, rfl, rfl, rfl, rfl, rfl, ⟨rfl, rfl, rfl, rfl, rfl⟩, st.CommitState_frame⟩

/-- C17, as stated, fails in its last part: on the sample reloading state (`E = 200`,
`Sy = 20`, `gap = 1/100`, `eta = 1/50`, `Behavior = true`, committed yield excursion to `1/5`,
trial strain `1/20`) the strain lies strictly between `Gap = 1/100` and
`minYieldStrain = 491/5000`, the previous upper bound is `1/5`, and `CommitState` gives the
upper bound `739/4900`, which is below `1/5`. -/
theorem reanchor_upper_bound_counterexample :
    reloadSample.Behavior = true ∧
    reloadSample.Gap < reloadSample.oldStrain ∧
    reloadSample.oldStrain < reloadSample.minYieldStrain ∧
    reloadSample.maxYieldStrain = 1/5 ∧
    reloadSample.CommitState.maxYieldStrain = 739/4900 ∧
    ¬ (reloadSample.maxYieldStrain ≤ reloadSample.CommitState.maxYieldStrain) := by
  norm_num [reloadSample, Plastic1DGap.run, Plastic1DGap.call, Plastic1DGap.construct,
    Plastic1DGap.UpdateState, Plastic1DGap.CommitState, behaviorSign, boolToDouble, abs_div]

/-- C17, amended. Re-anchoring, in exact arithmetic: with every operation of the code exact,
for `Behavior = true`, `E > 0`, `0 ≤ Ratio < 1` and every reachable state with
`Gap < oldStrain < minYieldStrain`, `CommitState` sets `minYieldStrain = oldStrain` and
`maxYieldStrain = fy/E + (oldStrain - Ratio*Gap)/(1 - Ratio)`, and this new `maxYieldStrain`
is not at least the previous `maxYieldStrain` but strictly below it. -/
theorem reanchor_moves_upper_bound_inward (st : Plastic1DGap) (hreach : st.Reachable)
    (hb : st.Behavior = true) (hgap : st.Gap < st.oldStrain)
    (hmin : st.oldStrain < st.minYieldStrain) :
    st.CommitState.minYieldStrain = st.oldStrain ∧
    st.CommitState.maxYieldStrain
      = st.fy / st.E + (st.oldStrain - st.Ratio * st.Gap) / (1 - st.Ratio) ∧
    st.CommitState.maxYieldStrain < st.maxYieldStrain := by
  rcases hreach.tension_or_mirror with ht | ⟨m, hm, rfl⟩
  · exact ht.reanchor hgap hmin
  · have hf : m.mirror.Behavior = false := by
      simp [Plastic1DGap.mirror, hm.behavior]
    rw [hf] at hb
    exact absurd hb (by decide)

/-- C17, amended, at a concrete input: the sample reloading state. -/
theorem reanchor_moves_upper_bound_inward_witness :
    reloadSample.CommitState.minYieldStrain = reloadSample.oldStrain ∧
    reloadSample.CommitState.maxYieldStrain
      = reloadSample.fy / reloadSample.E
        + (reloadSample.oldStrain - reloadSample.Ratio * reloadSample.Gap)
          / (1 - reloadSample.Ratio) ∧
    reloadSample.CommitState.maxYieldStrain < reloadSample.maxYieldStrain :=
  reanchor_moves_upper_bound_inward reloadSample
    ⟨200, 20, 1/100, 1/50, true, [Call.update (1/5) 0, Call.commit, Call.update (1/20) 0],
      by norm_num, by norm_num, by norm_num, rfl⟩
    (by norm_num [reloadSample, Plastic1DGap.run, Plastic1DGap.call, Plastic1DGap.construct,
      Plastic1DGap.UpdateState, Plastic1DGap.CommitState, behaviorSign, boolToDouble,
      abs_div])
    (by norm_num [reloadSample, Plastic1DGap.run, Plastic1DGap.call, Plastic1DGap.construct,
      Plastic1DGap.UpdateState, Plastic1DGap.CommitState, behaviorSign, boolToDouble,
      abs_div])
    (by norm_num [reloadSample, Plastic1DGap.run, Plastic1DGap.call, Plastic1DGap.construct,
      Plastic1DGap.UpdateState, Plastic1DGap.CommitState, behaviorSign, boolToDouble,
      abs_div])

/-- C19. Stress is consistent across a commit: for every reachable state (`E > 0`,
`0 ≤ Ratio < 1`, either `Behavior`) and every strain `s`, the `oldStress` produced by
`UpdateState(s)` equals the `oldStress` produced by `UpdateState(s); CommitState;
UpdateState(s)`. -/
theorem stress_consistent_across_commit (st : Plastic1DGap) (s : ℚ) (c d : ℕ)
    (hreach : st.Reachable) :
    (st.UpdateState s c).oldStress
      = ((st.UpdateState s c).CommitState.UpdateState s d).oldStress := by
  rcases hreach.tension_or_mirror with ht | ⟨m, hm, rfl⟩
  · rw [(ht.commit_update s c d).1]
    exact ((st.UpdateState s c).CommitState_frame).2.2.1.symm
  · have h := (hm.commit_update (-s) c d).1
    have hf := ((m.UpdateState (-s) c).CommitState_frame).2.2.1
    simp only [Plastic1DGap.UpdateState_of_mirror, Plastic1DGap.CommitState_mirror]
    show -(m.UpdateState (-s) c).oldStress
      = -((m.UpdateState (-s) c).CommitState.UpdateState (-s) d).oldStress
    rw [h, hf]

/-- C19 at a concrete input: the sample tension-side object and the strain `3/10`, a new
maximum, so the commit moves both bounds. -/
theorem stress_consistent_across_commit_witness :
    (tensionSample.UpdateState (3/10) 0).oldStress
      = ((tensionSample.UpdateState (3/10) 0).CommitState.UpdateState (3/10) 1).oldStress :=
  stress_consistent_across_commit tensionSample (3/10) 0 1
    ⟨200, 20, 1/100, 1/50, true, [Call.update (1/5) 0, Call.commit],
      by norm_num, by norm_num, by norm_num, rfl⟩

